import Mathlib

/-!
Verification of the query-compilation and pagination engine of
`patent_client/uspto/peds/manager.py` (class `USApplicationManager` and the
helpers `cast_as_datetime` / `datetime_to_solr`).

The Python source is shallowly embedded below.  Conventions:

* Python `datetime.datetime` values are records of calendar fields
  (microseconds are dropped: the source never sets, compares or renders
  them on the modelled paths).
* Python exceptions become `Except PyErr`; the distinct `raise` sites of the
  source get distinct `PyErr` constructors.
* Python dicts are insertion-ordered association lists (`dict_of`), matching
  CPython semantics; Python `set` accumulation is modelled as
  first-insertion-ordered deduplicated lists (`set_add`).  Python's set
  iteration order is unspecified, so the properties proved about the clause
  set are order-independent (memberships and counts), except where a query
  has at most one clause.
* Filter keys `"field__op"` are embedded structurally as `FilterKey`
  (base name plus the list of `"__"`-separated suffix components); the
  source only ever splits keys on `"__"`, so this is the same data.
-/

/-- Calendar/time fields of a Python `datetime.datetime` (microseconds dropped,
see module docstring). -/
structure Datetime where
  year : Nat
  month : Nat
  day : Nat
  hour : Nat
  minute : Nat
  second : Nat
deriving DecidableEq

/-- The error outcomes of the embedded code, one constructor per `raise` site
(or library error site) reachable in `manager.py`:
`invalidDateFilterTooManyOps` (line 85), `invalidDateFilterBadOp` (line 87),
`invalidDateFilterListWithOp` (line 89), `invalidDateRangeArity` (line 96) are
the `ValueError`s of the date-filter shape checks — the spec's
`InvalidFilterError` taxonomy; `invalidDateType` is the `ValueError` of
`cast_as_datetime` (line 36); `parserError` is `dateutil`'s failure on an
unparseable date string; `unboundLocalError` is Python's error for reading the
local `query` before assignment (line 141 on the escape-hatch path). -/
inductive PyErr where
  | invalidDateFilterTooManyOps
  | invalidDateFilterBadOp
  | invalidDateFilterListWithOp
  | invalidDateRangeArity
  | invalidDateType
  | parserError
  | unboundLocalError
deriving DecidableEq

/-- The spec's `InvalidFilterError` class: the shape-validation `ValueError`s
of `get_query_params` (lines 85, 87, 89, 96). -/
def isInvalidFilterError : PyErr → Bool
  | .invalidDateFilterTooManyOps => true
  | .invalidDateFilterBadOp => true
  | .invalidDateFilterListWithOp => true
  | .invalidDateRangeArity => true
  | _ => false

/-- Split a character list into the maximal groups separated by `'-'`. -/
def splitOnDash : List Char → List (List Char)
  | [] => [[]]
  | c :: cs =>
    let r := splitOnDash cs
    if c = '-' then [] :: r
    else
      match r with
      | [] => [[c]]
      | g :: gs => (c :: g) :: gs

/-- Numeric value of a decimal digit character, if it is one. -/
def digitVal? (c : Char) : Option Nat :=
  if '0' ≤ c ∧ c ≤ '9' then some (c.toNat - 48) else none

/-- Accumulator loop for `digitsToNat?`. -/
def digitsToNatAux : List Char → Nat → Option Nat
  | [], acc => some acc
  | c :: cs, acc =>
    match digitVal? c with
    | some d => digitsToNatAux cs (acc * 10 + d)
    | none => none

/-- Decimal reading of a nonempty all-digit character list. -/
def digitsToNat? : List Char → Option Nat
  | [] => none
  | cs => digitsToNatAux cs 0

/-- Modelled external collaborator: `dateutil.parser.parse` (`dt_parse` in the
source), restricted to the ISO `YYYY-MM-DD` fragment the proofs rely on.  A
date-only string parses to midnight of that day (dateutil's default); any
string that is not a calendar date — in particular the `"*"` unbounded-range
marker — raises `ParserError`, modelled as `none`. -/
def dt_parse (s : String) : Option Datetime :=
  match splitOnDash s.data with
  | [y, m, d] =>
    match digitsToNat? y, digitsToNat? m, digitsToNat? d with
    | some yn, some mn, some dn =>
      if 1 ≤ yn ∧ yn ≤ 9999 ∧ 1 ≤ mn ∧ mn ≤ 12 ∧ 1 ≤ dn ∧ dn ≤ 31 then
        some ⟨yn, mn, dn, 0, 0, 0⟩
      else none
    | _, _, _ => none
  | _ => none

/-- A scalar Python filter value: string, number, `datetime.datetime`, or
`datetime.date`. -/
inductive Scalar where
  | str (s : String)
  | num (n : Int)
  | dt (d : Datetime)
  | date (year month day : Nat)
deriving DecidableEq

/-- Python values that can appear as filter values: scalars, or lists/tuples
of scalars.  (Python also permits nested lists; the embedding restricts list
values to one level — every branch of the source either rejects a list
outright, destructures a 2-element one into its elements, or string-joins its
elements, so no modelled behavior depends on deeper nesting.) -/
inductive Value where
  | str (s : String)
  | num (n : Int)
  | dt (d : Datetime)
  | date (year month day : Nat)
  | list (vs : List Scalar)
deriving DecidableEq

/-- The scalar, as a `Value`. -/
def Scalar.toValue : Scalar → Value
  | .str s => Value.str s
  | .num n => Value.num n
  | .dt d => Value.dt d
  | .date y m d => Value.date y m d

/-- Embeds `cast_as_datetime` (manager.py lines 28-41): a `datetime` passes
through, a string goes through `dt_parse`, a `date` is combined with midnight,
anything else raises `ValueError` ("Invalid date type"); then the time of day
is overwritten with 23:59:59 (`end_of_day`) or 00:00:00. -/
def cast_as_datetime (date : Value) (end_of_day : Bool) : Except PyErr Datetime :=
  ((match date with
    | .dt d => Except.ok d
    | .str s =>
      match dt_parse s with
      | some d => Except.ok d
      | none => Except.error PyErr.parserError
    | .date y m d => Except.ok ⟨y, m, d, 0, 0, 0⟩
    | _ => Except.error PyErr.invalidDateType : Except PyErr Datetime)).map
    (fun d =>
      if end_of_day then { d with hour := 23, minute := 59, second := 59 }
      else { d with hour := 0, minute := 0, second := 0 })

/-- Decimal digit character. -/
def digitChar (n : Nat) : Char := Char.ofNat (48 + n)

/-- Decimal digits of `n` (fuel-structured so that it kernel-reduces). -/
def natToDigits (fuel n : Nat) : List Char :=
  match fuel with
  | 0 => []
  | fuel + 1 =>
    if n < 10 then [digitChar n]
    else natToDigits fuel (n / 10) ++ [digitChar (n % 10)]

/-- Decimal rendering of a natural number. -/
def natStr (n : Nat) : String := String.mk (natToDigits (n + 1) n)

/-- Zero-padded decimal rendering, like the fields of Python's `strftime`. -/
def natPad (w n : Nat) : String :=
  String.mk (List.replicate (w - (natToDigits (n + 1) n).length) '0') ++ natStr n

/-- Embeds `datetime_to_solr` (manager.py lines 44-45):
`date.strftime("%Y-%m-%dT%H:%M:%SZ")`. -/
def datetime_to_solr (d : Datetime) : String :=
  natPad 4 d.year ++ "-" ++ natPad 2 d.month ++ "-" ++ natPad 2 d.day ++ "T" ++
    natPad 2 d.hour ++ ":" ++ natPad 2 d.minute ++ ":" ++ natPad 2 d.second ++ "Z"

/-- Python `str(datetime.datetime)`: `"YYYY-MM-DD HH:MM:SS"` (zero
microseconds omitted). -/
def datetime_str (d : Datetime) : String :=
  natPad 4 d.year ++ "-" ++ natPad 2 d.month ++ "-" ++ natPad 2 d.day ++ " " ++
    natPad 2 d.hour ++ ":" ++ natPad 2 d.minute ++ ":" ++ natPad 2 d.second

/-- Python `str()` of a scalar filter value, as used when rendering non-date
clauses (manager.py lines 125, 128). -/
def Scalar.toStr : Scalar → String
  | .str s => s
  | .num n => toString n
  | .dt d => datetime_str d
  | .date y m d => natPad 4 y ++ "-" ++ natPad 2 m ++ "-" ++ natPad 2 d

/-- Python `str()` of a filter value (a list never reaches `str()` whole in
the source: the scalar branch at line 128 is only taken for non-sequences). -/
def Value.toStr : Value → String
  | .str s => s
  | .num n => toString n
  | .dt d => datetime_str d
  | .date y m d => natPad 4 y ++ "-" ++ natPad 2 m ++ "-" ++ natPad 2 d
  | .list vs => "[" ++ String.intercalate ", " (vs.map Scalar.toStr) ++ "]"

/-- A filter key, structurally: the base field name and the list of
`"__"`-separated suffix components (so `"filing_date__gte"` is
`⟨"filing_date", ["gte"]⟩`).  The source only ever inspects keys by splitting
on `"__"` (manager.py line 83), so this carries the same information. -/
structure FilterKey where
  base : String
  ops : List String
deriving DecidableEq

/-- The key string as Python sees it: base and suffix components rejoined
with `"__"`. -/
def FilterKey.toStr (k : FilterKey) : String :=
  k.ops.foldl (fun a o => a ++ "__" ++ o) k.base

/-- The reserved raw-query escape-hatch key (manager.py line 68). -/
def queryKey : FilterKey := ⟨"query", []⟩

/-- Modelled from the spec: the field registry behind `QueryFields`
(module `patent_client/uspto/peds/query.py`, not under src/).  Per spec
sections 4.1 and 6 it resolves user-facing filter names to canonical backend
field names and classifies date-typed fields, for a fixed statically known
field set.  Canonical names contain no `"__"`. -/
structure FieldRegistry where
  canonical : String → String
  isDate : String → Bool

/-- Modelled from the spec: `QueryFields.get` resolves the base name of a key
(stripped of its operator suffix) to the canonical backend name and keeps the
suffix, since `get_query_params` later re-splits the returned key on `"__"`
(manager.py lines 73, 76, 83). -/
def QueryFields.get (r : FieldRegistry) (k : FilterKey) : FilterKey :=
  ⟨r.canonical k.base, k.ops⟩

/-- Modelled from the spec: `QueryFields.is_date_field` is true iff the
canonical field named by the key (stripped of any operator suffix) is
date-typed (spec section 4.1). -/
def QueryFields.is_date_field (r : FieldRegistry) (k : FilterKey) : Bool :=
  r.isDate k.base

/-- Modelled from the spec: the manager configuration carried by
`patent_client.util.manager.Manager` (not under src/) — the filter mapping,
the sort tokens, and the offset/limit slicing of the result stream.  `limit`
is `Option Nat`: `none` is Python `None`. -/
structure Config where
  filter : List (FilterKey × Value)
  order_by : List String
  limit : Option Nat
  offset : Nat

/-- Python dict key membership. -/
def dict_mem [DecidableEq κ] (d : List (κ × β)) (k : κ) : Bool :=
  d.any (fun p => decide (p.1 = k))

/-- Python dict insertion: a repeated key overwrites the value in place,
a fresh key is appended (CPython insertion order). -/
def dict_insert [DecidableEq κ] (d : List (κ × β)) (k : κ) (v : β) : List (κ × β) :=
  if dict_mem d k then d.map (fun p => if p.1 = k then (k, v) else p)
  else d ++ [(k, v)]

/-- Python dict built from a key-value stream (dict comprehension). -/
def dict_of [DecidableEq κ] (items : List (κ × β)) : List (κ × β) :=
  items.foldl (fun d p => dict_insert d p.1 p.2) []

/-- Python set accumulation, modelled as first-insertion-ordered
deduplication (`set.add`); see the module docstring about iteration order. -/
def set_add [DecidableEq α] (l : List α) (x : α) : List α :=
  if l.contains x then l else l ++ [x]

/-- The `date_filters` dict of manager.py lines 72-74: canonical-keyed
sub-dict of the filter entries whose field is a date field. -/
def date_filters (r : FieldRegistry) (filter : List (FilterKey × Value)) :
    List (FilterKey × Value) :=
  dict_of (((filter.filter (fun p => QueryFields.is_date_field r p.1)).map
    (fun p => (QueryFields.get r p.1, p.2))))

/-- The `non_date_filters` dict of manager.py lines 75-77: entries whose
canonical key is not a key of `date_filters`. -/
def non_date_filters (r : FieldRegistry) (filter : List (FilterKey × Value)) :
    List (FilterKey × Value) :=
  dict_of (((filter.filter
    (fun p => !(dict_mem (date_filters r filter) (QueryFields.get r p.1)))).map
    (fun p => (QueryFields.get r p.1, p.2))))

/-- Embeds the date-filter validity loop of manager.py lines 79-102, producing
`date_filter_tuples`: for each date filter, split base/operator, reject a key
with more than one operator (line 85), an operator other than gte/lte
(line 87), a list value combined with an operator (line 89), and a list value
of length other than 2 (line 96); otherwise emit (field, op, cast value)
triples — a pair of gte/lte triples for a 2-element list, an `exact` triple
for a scalar. -/
def date_filter_tuples :
    List (FilterKey × Value) → Except PyErr (List (String × String × Datetime))
  | [] => Except.ok []
  | (k, v) :: rest =>
    match k.ops with
    | [] =>
      match v with
      | .list vs =>
        match vs with
        | [a, b] => do
          let d0 ← cast_as_datetime a.toValue false
          let d1 ← cast_as_datetime b.toValue false
          let ts ← date_filter_tuples rest
          Except.ok ((k.base, "gte", d0) :: (k.base, "lte", d1) :: ts)
        | _ => Except.error PyErr.invalidDateRangeArity
      | _ => do
        let d ← cast_as_datetime v false
        let ts ← date_filter_tuples rest
        Except.ok ((k.base, "exact", d) :: ts)
    | [op] =>
      if op ≠ "gte" ∧ op ≠ "lte" then Except.error PyErr.invalidDateFilterBadOp
      else
        match v with
        | .list _ => Except.error PyErr.invalidDateFilterListWithOp
        | _ => do
          let d ← cast_as_datetime v false
          let ts ← date_filter_tuples rest
          Except.ok ((k.base, op, d) :: ts)
    | _ => Except.error PyErr.invalidDateFilterTooManyOps

/-- Embeds the gte/lte pairing loop of manager.py lines 103-113, producing
`query_date_filter_tuples`.  NOTE (faithful to a defect in the source): the
generator `(v for k, op, v in date_filter_tuples if k == k and op == "lte")`
rebinds `k`, `op`, `v`, so the condition `k == k` compares the generator's own
variable with itself and is always true; the first lte (resp. gte) value of
ANY field is therefore taken, not the one of the field being paired.  The
absent-bound default is the string `"*"`. -/
def query_date_filter_tuples (ts : List (String × String × Datetime)) :
    List (String × (Value × Value)) :=
  ts.foldl
    (fun acc t =>
      if t.2.1 = "gte" then
        let lte_query :=
          ((ts.find? (fun u => decide (u.2.1 = "lte"))).map
            (fun u => Value.dt u.2.2)).getD (Value.str "*")
        set_add acc (t.1, (Value.dt t.2.2, lte_query))
      else if t.2.1 = "lte" then
        let gte_query :=
          ((ts.find? (fun u => decide (u.2.1 = "gte"))).map
            (fun u => Value.dt u.2.2)).getD (Value.str "*")
        set_add acc (t.1, (gte_query, Value.dt t.2.2))
      else if t.2.1 = "exact" then
        set_add acc (t.1, (Value.dt t.2.2, Value.dt t.2.2))
      else acc)
    []

/-- Embeds the rendering of one date range clause (manager.py lines 116-120):
both bounds are re-cast (`start` first), the upper one with
`end_of_day=True`, then formatted as `field:[start TO end]`. -/
def render_date_clause (k : String) (v : Value × Value) : Except PyErr String :=
  match cast_as_datetime v.1 false with
  | .error e => Except.error e
  | .ok s =>
    match cast_as_datetime v.2 true with
    | .error e => Except.error e
    | .ok e2 =>
      Except.ok (k ++ ":[" ++ datetime_to_solr s ++ " TO " ++ datetime_to_solr e2 ++ "]")

/-- Renders all paired date clauses in order, stopping at the first error,
as the `for` loop of manager.py lines 116-120 does. -/
def render_date_clauses :
    List (String × (Value × Value)) → Except PyErr (List String)
  | [] => Except.ok []
  | (k, v) :: rest =>
    match render_date_clause k v with
    | .error e => Except.error e
    | .ok c =>
      match render_date_clauses rest with
      | .error e => Except.error e
      | .ok cs => Except.ok (c :: cs)

/-- The date-clause stage of `get_query_params` (manager.py lines 72-120):
validate and cast the date filters, pair the bounds, render the clauses. -/
def date_clauses (r : FieldRegistry) (filter : List (FilterKey × Value)) :
    Except PyErr (List String) :=
  match date_filter_tuples (date_filters r filter) with
  | .error e => Except.error e
  | .ok ts => render_date_clauses (query_date_filter_tuples ts)

/-- Embeds the rendering of one non-date clause (manager.py lines 123-128):
a non-string sequence value renders as an OR-set, anything else as a single
parenthesized value. -/
def render_non_date_clause (k : String) (v : Value) : String :=
  match v with
  | .list vs => k ++ ":(" ++ String.intercalate " OR " (vs.map Scalar.toStr) ++ ")"
  | _ => k ++ ":(" ++ v.toStr ++ ")"

/-- All non-date clauses, in dict order (manager.py lines 122-128). -/
def non_date_clauses (r : FieldRegistry) (filter : List (FilterKey × Value)) :
    List String :=
  (non_date_filters r filter).map (fun p => render_non_date_clause p.1.toStr p.2)

/-- Embeds the sort-clause block of manager.py lines 131-139 plus the `if
sort_query:` truthiness of line 148: `None` (no tokens) and the empty string
are both falsy.  The source passes the raw token — leading `"-"` included —
to `QueryFields.get`; field resolution of that raw token is modelled by
`canonical` directly.  A claim never exercises this block; it is embedded for
completeness. -/
def build_sort (r : FieldRegistry) (order_by : List String) : Option String :=
  match order_by with
  | [] => none
  | _ =>
    let sq := order_by.foldl
      (fun acc s =>
        if s.front = '-' then acc ++ (r.canonical s ++ " desc ").trim
        else acc ++ (r.canonical s ++ " asc").trim)
      ""
    if sq = "" then none else some sq

/-- The compiled query parameters (manager.py lines 143-150): query text,
`facet`, the minimum-match heuristic, and the optional sort clause. -/
structure QueryData where
  query : String
  facet : Bool
  minimum_match : String
  sort : Option String
deriving DecidableEq

/-- Embeds `USApplicationManager.get_query_params` (manager.py lines 66-150).

Escape hatch: when the reserved `"query"` key is present, line 69 sets
`query_text` and skips the compilation branch — but the local list `query` is
only assigned inside that skipped branch (line 71), so the membership test
`"appEarlyPubNumber" not in query` at line 141 raises `UnboundLocalError`
before anything is returned.  This is embedded faithfully (the sort block in
between cannot raise).

Compiled path: the clause list is the date clauses followed by the non-date
clauses; `query_text` joins them with `" AND "`; the minimum-match check at
line 141 is Python LIST membership of the bare string `"appEarlyPubNumber"`
among the clause strings (not a substring test on the query text). -/
def get_query_params (r : FieldRegistry) (cfg : Config) : Except PyErr QueryData :=
  if dict_mem cfg.filter queryKey then
    Except.error PyErr.unboundLocalError
  else
    match date_clauses r cfg.filter with
    | .error e => Except.error e
    | .ok dcs =>
      let clauses := dcs ++ non_date_clauses r cfg.filter
      let query_text := String.intercalate " AND " clauses
      let mm :=
        if !(clauses.any (fun c => decide (c = "appEarlyPubNumber"))) then "0%"
        else "90%"
      Except.ok ⟨query_text, false, mm, build_sort r cfg.order_by⟩

/-- One fetch window: start offset and requested row count. -/
structure Window where
  start : Nat
  rows : Nat
deriving DecidableEq

/-- Modelled from the spec: `get_start_and_row_count`
(`patent_client.util.request_util`, not under src/).  Per spec section 4.4 it
produces successive windows of at most `page_size` rows starting at `offset`,
advancing by `page_size` and truncating the final window so the cumulative
row count equals `limit` (spec section 8 example: limit 45, offset 10, page
size 20 gives (10,20), (30,20), (50,5)).  With no limit the source generator
is unbounded; any finite execution only observes a prefix of it, modelled by
the explicit prefix length `prefix_len`. -/
def get_start_and_row_count (limit : Option Nat) (offset page_size prefix_len : Nat) :
    List Window :=
  match limit with
  | some l =>
    (List.range ((l + page_size - 1) / page_size)).map
      (fun i => ⟨offset + i * page_size, min page_size (l - i * page_size)⟩)
  | none =>
    (List.range prefix_len).map (fun i => ⟨offset + i * page_size, page_size⟩)

/-- Embeds the fetch loop of `_aget_results` (manager.py lines 59-64): for
each window, fetch the page, yield every record of it in order, and stop
after the first page strictly shorter than its requested row count.  Returns
the yielded records and the list of windows actually requested. -/
def aget_results_loop {α : Type} (fetch : Window → List α) :
    List Window → List α × List Window
  | [] => ([], [])
  | w :: ws =>
    let page := fetch w
    if page.length < w.rows then (page, [w])
    else
      let rest := aget_results_loop fetch ws
      (page ++ rest.1, w :: rest.2)

/-- Embeds `USApplicationManager._aget_results` (manager.py lines 56-64):
compile the query parameters first (line 57) — any filter-shape error
propagates here, before the API object is even consulted — then run the fetch
loop over the windows of `get_start_and_row_count`.  The page-fetch
capability is the function `fetch`; its call record is the returned window
list (empty when compilation failed: no fetch was issued). -/
def aget_results {α : Type} (r : FieldRegistry) (cfg : Config)
    (fetch : Window → List α) (prefix_len : Nat) :
    Except PyErr (List α) × List Window :=
  match get_query_params r cfg with
  | .error e => (Except.error e, [])
  | .ok _ =>
    let res := aget_results_loop fetch
      (get_start_and_row_count cfg.limit cfg.offset 20 prefix_len)
    (Except.ok res.1, res.2)

/-- One call to the backend's `create_query`: the compiled parameters plus the
optional `start`/`rows` pagination arguments (`none` for the count-only query
issued by `alen`, which passes no window). -/
structure ApiCall where
  params : QueryData
  start : Option Nat
  rows : Option Nat
deriving DecidableEq

/-- Python truthiness of the configured limit: `None` and `0` are falsy. -/
def limit_truthy : Option Nat → Bool
  | none => false
  | some n => decide (n ≠ 0)

/-- Embeds `USApplicationManager.alen` (manager.py lines 51-54): compile the
query parameters, issue a single `create_query` call with no `start`/`rows`
window, read only its `num_found` field, and return
`min(num_found, limit) if limit else num_found`.  `num_found` is the
backend's reported total count; the call record is returned alongside. -/
def alen (r : FieldRegistry) (cfg : Config) (num_found : Nat) :
    Except PyErr Nat × List ApiCall :=
  match get_query_params r cfg with
  | .error e => (Except.error e, [])
  | .ok params =>
    (Except.ok
      (if limit_truthy cfg.limit then min num_found (cfg.limit.getD 0)
       else num_found),
     [⟨params, none, none⟩])

/-- Modelled from the spec: a sample field registry sufficient for the spec's
scenarios (section 8) — `appl_id` resolves to itself (the scenario output is
`appl_id:(12345678)`), `early_pub_number` resolves to the broad identifier
field `appEarlyPubNumber` of the minimum-match heuristic, and `filing_date`
and `patent_issue_date` are date fields. -/
def sampleRegistry : FieldRegistry :=
  ⟨fun s => if s = "early_pub_number" then "appEarlyPubNumber" else s,
   fun s => decide (s = "filing_date" ∨ s = "patent_issue_date")⟩

/-! ### Helper lemmas -/

theorem str_data_append (s t : String) : (s ++ t).data = s.data ++ t.data := by
  cases s
  cases t
  rfl

theorem mem_data_append_left (c : Char) (s t : String) (h : c ∈ s.data) :
    c ∈ (s ++ t).data := by
  rw [str_data_append]
  exact List.mem_append_left _ h

theorem mem_data_append_right (c : Char) (s t : String) (h : c ∈ t.data) :
    c ∈ (s ++ t).data := by
  rw [str_data_append]
  exact List.mem_append_right _ h

/-- A rendered range clause contains a colon, so it can never equal the bare
field name tested by the minimum-match membership check of line 141. -/
theorem range_clause_ne_appEarlyPubNumber (k a b : String) :
    k ++ ":[" ++ a ++ " TO " ++ b ++ "]" ≠ "appEarlyPubNumber" := by
  intro h
  have h1 : ':' ∈ (k ++ ":[").data := mem_data_append_right ':' k ":[" (by decide)
  have h2 : ':' ∈ (k ++ ":[" ++ a).data := mem_data_append_left ':' (k ++ ":[") a h1
  have h3 : ':' ∈ (k ++ ":[" ++ a ++ " TO ").data :=
    mem_data_append_left ':' (k ++ ":[" ++ a) " TO " h2
  have h4 : ':' ∈ (k ++ ":[" ++ a ++ " TO " ++ b).data :=
    mem_data_append_left ':' (k ++ ":[" ++ a ++ " TO ") b h3
  have h5 : ':' ∈ (k ++ ":[" ++ a ++ " TO " ++ b ++ "]").data :=
    mem_data_append_left ':' (k ++ ":[" ++ a ++ " TO " ++ b) "]" h4
  rw [h] at h5
  exact absurd h5 (by decide)

theorem cast_as_datetime_false_time (v : Value) (d : Datetime)
    (h : cast_as_datetime v false = Except.ok d) :
    d.hour = 0 ∧ d.minute = 0 ∧ d.second = 0 := by
  unfold cast_as_datetime at h
  cases v with
  | str s =>
    cases hp : dt_parse s with
    | none => simp [hp, Except.map] at h
    | some d0 =>
      simp [hp, Except.map] at h
      subst h
      exact ⟨rfl, rfl, rfl⟩
  | dt d0 =>
    simp [Except.map] at h
    subst h
    exact ⟨rfl, rfl, rfl⟩
  | date y m dd =>
    simp [Except.map] at h
    subst h
    exact ⟨rfl, rfl, rfl⟩
  | num n => simp [Except.map] at h
  | list vs => simp [Except.map] at h

theorem cast_as_datetime_true_time (v : Value) (d : Datetime)
    (h : cast_as_datetime v true = Except.ok d) :
    d.hour = 23 ∧ d.minute = 59 ∧ d.second = 59 := by
  unfold cast_as_datetime at h
  cases v with
  | str s =>
    cases hp : dt_parse s with
    | none => simp [hp, Except.map] at h
    | some d0 =>
      simp [hp, Except.map] at h
      subst h
      exact ⟨rfl, rfl, rfl⟩
  | dt d0 =>
    simp [Except.map] at h
    subst h
    exact ⟨rfl, rfl, rfl⟩
  | date y m dd =>
    simp [Except.map] at h
    subst h
    exact ⟨rfl, rfl, rfl⟩
  | num n => simp [Except.map] at h
  | list vs => simp [Except.map] at h

/-! ### Claim theorems -/

/-- C1: REFUTED (code bug).  The pairing loop is claimed to produce exactly
one merged clause `[A, B]` per field, pairing only same-field bounds.  With
the filter `{patent_issue_date__lte: 2021-03-04, filing_date__gte: 2020-01-01,
filing_date__lte: 2020-06-30}` the shadowed `k == k` condition of manager.py
lines 107/110 pairs each bound with the first opposite bound of ANY field:
`filing_date` receives TWO range clauses (one with `patent_issue_date`'s lte
value), and `patent_issue_date`'s clause takes `filing_date`'s gte value.
The second conjunct states order-independently that two distinct rendered
clauses are for `filing_date`. -/
theorem c1_cross_field_pairing_bug :
    date_clauses sampleRegistry
      [(⟨"patent_issue_date", ["lte"]⟩, Value.str "2021-03-04"),
       (⟨"filing_date", ["gte"]⟩, Value.str "2020-01-01"),
       (⟨"filing_date", ["lte"]⟩, Value.str "2020-06-30")] =
      Except.ok
        ["patent_issue_date:[2020-01-01T00:00:00Z TO 2021-03-04T23:59:59Z]",
         "filing_date:[2020-01-01T00:00:00Z TO 2021-03-04T23:59:59Z]",
         "filing_date:[2020-01-01T00:00:00Z TO 2020-06-30T23:59:59Z]"]
    ∧ (["patent_issue_date:[2020-01-01T00:00:00Z TO 2021-03-04T23:59:59Z]",
        "filing_date:[2020-01-01T00:00:00Z TO 2021-03-04T23:59:59Z]",
        "filing_date:[2020-01-01T00:00:00Z TO 2020-06-30T23:59:59Z]"].countP
        (fun c => "filing_date:".data.isPrefixOf c.data)) = 2 :=
  ⟨rfl, by decide⟩

/-- C2: REFUTED (code bug).  The minimum-match heuristic is claimed to be
`"90%"` when `appEarlyPubNumber` occurs in the compiled query text.  Line 141
(`"appEarlyPubNumber" not in query`) tests Python LIST membership among whole
clause strings, each of which contains a colon, so the test never fires: a
filter on the `appEarlyPubNumber` field compiles to query text that starts
with `appEarlyPubNumber` (second conjunct) yet still gets `minimum_match`
`"0%"`.  The third conjunct is the claim's (correct) `appl_id` scenario. -/
theorem c2_minimum_match_never_90 :
    get_query_params sampleRegistry
      ⟨[(⟨"early_pub_number", []⟩, Value.str "US20200000001A1")], [], none, 0⟩ =
      Except.ok ⟨"appEarlyPubNumber:(US20200000001A1)", false, "0%", none⟩
    ∧ "appEarlyPubNumber".data.isPrefixOf
        "appEarlyPubNumber:(US20200000001A1)".data = true
    ∧ get_query_params sampleRegistry
        ⟨[(⟨"appl_id", []⟩, Value.str "12345678")], [], none, 0⟩ =
        Except.ok ⟨"appl_id:(12345678)", false, "0%", none⟩ :=
  ⟨rfl, by decide, rfl⟩

/-- C3: REFUTED (code bug).  The raw-`query` escape hatch is claimed to
return the value verbatim and complete without error.  On that path the local
list `query` (assigned only at line 71, inside the skipped branch) is read at
line 141, so `get_query_params` raises `UnboundLocalError` for every filter
mapping containing the reserved key. -/
theorem c3_escape_hatch_unbound_local :
    get_query_params sampleRegistry
      ⟨[(queryKey, Value.str "appl_id:(12345678)")], [], none, 0⟩ =
      Except.error PyErr.unboundLocalError := rfl

/-- C4: REFUTED (code bug).  A lone `field__gte=A` filter is claimed to
succeed and render `[A, *]`.  The absent-bound default `"*"` (line 107) is
fed through `cast_as_datetime` when the clause is rendered (line 119), and
`dateutil` cannot parse `"*"`, so `get_query_params` raises instead of
rendering an open-ended range. -/
theorem c4_open_upper_bound_crashes :
    get_query_params sampleRegistry
      ⟨[(⟨"filing_date", ["gte"]⟩, Value.str "2020-01-01")], [], none, 0⟩ =
      Except.error PyErr.parserError := rfl

theorem dict_mem_single (k q : FilterKey) (v : Value) (h : k ≠ q) :
    dict_mem [(k, v)] q = false := by
  simp [dict_mem, h]

theorem date_filters_single_date (r : FieldRegistry) (k : FilterKey) (v : Value)
    (h : QueryFields.is_date_field r k = true) :
    date_filters r [(k, v)] = [(QueryFields.get r k, v)] := by
  simp [date_filters, dict_of, dict_insert, dict_mem, h]

theorem non_date_filters_single_date (r : FieldRegistry) (k : FilterKey) (v : Value)
    (h : QueryFields.is_date_field r k = true) :
    non_date_filters r [(k, v)] = [] := by
  simp [non_date_filters, date_filters_single_date r k v h, dict_mem, dict_of]

theorem non_date_clauses_single_date (r : FieldRegistry) (k : FilterKey) (v : Value)
    (h : QueryFields.is_date_field r k = true) :
    non_date_clauses r [(k, v)] = [] := by
  simp [non_date_clauses, non_date_filters_single_date r k v h]

theorem date_filter_tuples_scalar (cb : String) (v : Value) (d : Datetime)
    (hcast : cast_as_datetime v false = Except.ok d) :
    date_filter_tuples [(⟨cb, []⟩, v)] = Except.ok [(cb, "exact", d)] := by
  cases v with
  | list vs => exact absurd hcast (by simp [cast_as_datetime, Except.map])
  | str s =>
    simp only [date_filter_tuples, hcast]
    rfl
  | num n => exact absurd hcast (by simp [cast_as_datetime, Except.map])
  | dt d0 =>
    simp only [date_filter_tuples, hcast]
    rfl
  | date y m dd =>
    simp only [date_filter_tuples, hcast]
    rfl

theorem query_pairs_exact (cb : String) (d : Datetime) :
    query_date_filter_tuples [(cb, "exact", d)] = [(cb, (Value.dt d, Value.dt d))] := rfl

theorem render_single_exact (cb : String) (d : Datetime) :
    render_date_clauses [(cb, (Value.dt d, Value.dt d))] =
      Except.ok [cb ++ ":[" ++ datetime_to_solr ⟨d.year, d.month, d.day, 0, 0, 0⟩ ++
        " TO " ++ datetime_to_solr ⟨d.year, d.month, d.day, 23, 59, 59⟩ ++ "]"] := rfl

/-- C5: a filter mapping with a single scalar date filter (no operator
suffix) compiles to exactly one range clause, both bounds on the calendar day
of the cast value, the lower at 00:00:00 and the upper at 23:59:59, in the
format `field:[YYYY-MM-DDT00:00:00Z TO YYYY-MM-DDT23:59:59Z]`; minimum-match
is `"0%"`. -/
theorem get_query_params_single_scalar_date (r : FieldRegistry) (base : String)
    (v : Value) (d : Datetime) (ob : List String) (limit : Option Nat) (offset : Nat)
    (hq : base ≠ "query") (hdate : r.isDate base = true)
    (hcast : cast_as_datetime v false = Except.ok d) :
    get_query_params r ⟨[(⟨base, []⟩, v)], ob, limit, offset⟩ =
      Except.ok ⟨r.canonical base ++ ":[" ++
          datetime_to_solr ⟨d.year, d.month, d.day, 0, 0, 0⟩ ++ " TO " ++
          datetime_to_solr ⟨d.year, d.month, d.day, 23, 59, 59⟩ ++ "]",
        false, "0%", build_sort r ob⟩ := by
  have hkq : (⟨base, []⟩ : FilterKey) ≠ queryKey := by
    simp [queryKey]
    exact hq
  have hdf : QueryFields.is_date_field r ⟨base, []⟩ = true := hdate
  have hget : QueryFields.get r ⟨base, []⟩ = ⟨r.canonical base, []⟩ := rfl
  have hdc : date_clauses r [(⟨base, []⟩, v)] =
      Except.ok [r.canonical base ++ ":[" ++
        datetime_to_solr ⟨d.year, d.month, d.day, 0, 0, 0⟩ ++ " TO " ++
        datetime_to_solr ⟨d.year, d.month, d.day, 23, 59, 59⟩ ++ "]"] := by
    unfold date_clauses
    rw [date_filters_single_date r _ v hdf, hget,
      date_filter_tuples_scalar (r.canonical base) v d hcast]
    rfl
  unfold get_query_params
  rw [dict_mem_single _ _ _ hkq]
  rw [hdc]
  rw [non_date_clauses_single_date r _ v hdf]
  simp only [List.append_nil, List.any_cons, List.any_nil, Bool.or_false]
  rw [decide_eq_false (range_clause_ne_appEarlyPubNumber (r.canonical base)
    (datetime_to_solr ⟨d.year, d.month, d.day, 0, 0, 0⟩)
    (datetime_to_solr ⟨d.year, d.month, d.day, 23, 59, 59⟩))]
  rfl

/-- Witness for C5: the spec's own scenario, `{"filing_date": "2020-01-01"}`. -/
theorem get_query_params_single_scalar_date_witness :
    cast_as_datetime (Value.str "2020-01-01") false =
        Except.ok ⟨2020, 1, 1, 0, 0, 0⟩
    ∧ get_query_params sampleRegistry
        ⟨[(⟨"filing_date", []⟩, Value.str "2020-01-01")], [], none, 0⟩ =
        Except.ok ⟨"filing_date:[2020-01-01T00:00:00Z TO 2020-01-01T23:59:59Z]",
          false, "0%", none⟩ :=
  ⟨rfl, get_query_params_single_scalar_date sampleRegistry "filing_date"
    (Value.str "2020-01-01") ⟨2020, 1, 1, 0, 0, 0⟩ [] none 0
    (by decide) (by decide) rfl⟩

/-- A malformed date filter in the sense of the spec's shape checks: a
suffix-free list value of length other than 2; a list value combined with a
gte/lte suffix; more than one operator suffix; or an operator other than
gte/lte. -/
def malformed_date_filter (ops : List String) (v : Value) : Prop :=
  (ops = [] ∧ ∃ vs, v = Value.list vs ∧ vs.length ≠ 2)
  ∨ (∃ op vs, ops = [op] ∧ (op = "gte" ∨ op = "lte") ∧ v = Value.list vs)
  ∨ 1 < ops.length
  ∨ (∃ op, ops = [op] ∧ op ≠ "gte" ∧ op ≠ "lte")

/-- C6: every malformed date filter is rejected with one of the
shape-validation errors (the spec's `InvalidFilterError`), and the error
propagates out of `_aget_results` at query-compilation time with an empty
fetch-window record: no fetch-capability call is issued. -/
theorem malformed_date_filter_fails_fast {α : Type} (r : FieldRegistry)
    (base : String) (ops : List String) (v : Value) (ob : List String)
    (limit : Option Nat) (offset : Nat) (fetch : Window → List α) (pl : Nat)
    (hq : base ≠ "query") (hdate : r.isDate base = true)
    (hmal : malformed_date_filter ops v) :
    ∃ e, isInvalidFilterError e = true ∧
      get_query_params r ⟨[(⟨base, ops⟩, v)], ob, limit, offset⟩ = Except.error e ∧
      aget_results r ⟨[(⟨base, ops⟩, v)], ob, limit, offset⟩ fetch pl =
        (Except.error e, []) := by
  have hkq : (⟨base, ops⟩ : FilterKey) ≠ queryKey := by
    simp only [queryKey, ne_eq, FilterKey.mk.injEq, not_and]
    intro h1
    exact absurd h1 hq
  have hdf : QueryFields.is_date_field r ⟨base, ops⟩ = true := hdate
  have hfil : date_filters r [(⟨base, ops⟩, v)] = [(⟨r.canonical base, ops⟩, v)] := by
    rw [date_filters_single_date r _ v hdf]
    rfl
  have hft : ∃ e, isInvalidFilterError e = true ∧
      date_filter_tuples [(⟨r.canonical base, ops⟩, v)] = Except.error e := by
    rcases hmal with ⟨hops, vs, hv, hlen⟩ | ⟨op, vs, hops, hop, hv⟩ | hlen | ⟨op, hops, h1, h2⟩
    · subst hops
      subst hv
      refine ⟨PyErr.invalidDateRangeArity, rfl, ?_⟩
      rcases vs with _ | ⟨a, t⟩
      · rfl
      rcases t with _ | ⟨b, t2⟩
      · rfl
      rcases t2 with _ | ⟨c, t3⟩
      · exact absurd rfl hlen
      · rfl
    · subst hops
      subst hv
      refine ⟨PyErr.invalidDateFilterListWithOp, rfl, ?_⟩
      rcases hop with h | h <;> subst h <;> rfl
    · rcases ops with _ | ⟨a, t⟩
      · exact absurd hlen (by simp)
      rcases t with _ | ⟨b, t2⟩
      · exact absurd hlen (by simp)
      · exact ⟨PyErr.invalidDateFilterTooManyOps, rfl, rfl⟩
    · subst hops
      refine ⟨PyErr.invalidDateFilterBadOp, rfl, ?_⟩
      have hcond : op ≠ "gte" ∧ op ≠ "lte" := ⟨h1, h2⟩
      simp only [date_filter_tuples]
      rw [if_pos hcond]
  obtain ⟨e, he, hft⟩ := hft
  have hdc : date_clauses r [(⟨base, ops⟩, v)] = Except.error e := by
    unfold date_clauses
    rw [hfil, hft]
  have hgqp : get_query_params r ⟨[(⟨base, ops⟩, v)], ob, limit, offset⟩ =
      Except.error e := by
    unfold get_query_params
    rw [dict_mem_single _ _ _ hkq]
    rw [hdc]
    rfl
  refine ⟨e, he, hgqp, ?_⟩
  unfold aget_results
  rw [hgqp]

/-- Witness for C6: a key with two operator suffixes,
`filing_date__gte__lte`, is rejected before any fetch window is requested. -/
theorem malformed_date_filter_fails_fast_witness :
    sampleRegistry.isDate "filing_date" = true ∧
    (∃ e, isInvalidFilterError e = true ∧
      get_query_params sampleRegistry
        ⟨[(⟨"filing_date", ["gte", "lte"]⟩, Value.str "2020-01-01")], [], none, 0⟩ =
        Except.error e ∧
      aget_results sampleRegistry
        ⟨[(⟨"filing_date", ["gte", "lte"]⟩, Value.str "2020-01-01")], [], none, 0⟩
        (fun _ => ([] : List Nat)) 0 = (Except.error e, [])) :=
  ⟨by decide, malformed_date_filter_fails_fast sampleRegistry "filing_date"
    ["gte", "lte"] (Value.str "2020-01-01") [] none 0 (fun _ => ([] : List Nat)) 0
    (by decide) (by decide) (Or.inr (Or.inr (Or.inl (by decide))))⟩

/-- C7: whenever a fetched page is strictly shorter than its requested row
count (all earlier pages being full), the fetch loop of `_aget_results`
yields every record of the pages up to and including the short one, in order,
and the requested windows are exactly those pages: no later window is ever
fetched. -/
theorem aget_results_loop_short_page {α : Type} (fetch : Window → List α)
    (pre : List Window) (w : Window) (post : List Window)
    (hfull : ∀ u ∈ pre, (fetch u).length = u.rows)
    (hshort : (fetch w).length < w.rows) :
    aget_results_loop fetch (pre ++ w :: post) =
      ((pre.map fetch).flatten ++ fetch w, pre ++ [w]) := by
  induction pre with
  | nil =>
    simp only [List.nil_append, aget_results_loop, List.map_nil, List.flatten_nil]
    rw [if_pos hshort]
  | cons u t ih =>
    have hu : (fetch u).length = u.rows := hfull u (List.mem_cons_self u t)
    have ht : ∀ x ∈ t, (fetch x).length = x.rows :=
      fun x hx => hfull x (List.mem_cons_of_mem u hx)
    simp only [List.cons_append, aget_results_loop, List.append_eq]
    rw [ih ht, hu]
    simp [Nat.lt_irrefl, List.flatten]

/-- Witness for C7: the spec's end-of-data scenario — window (30,20) returns
only 12 records, so those 12 are yielded after the first full page and window
(50,5) is never requested. -/
theorem aget_results_loop_short_page_witness :
    aget_results_loop (fun w => List.range (if w.start = 30 then 12 else w.rows))
      [⟨10, 20⟩, ⟨30, 20⟩, ⟨50, 5⟩] =
      (List.range 20 ++ List.range 12, [⟨10, 20⟩, ⟨30, 20⟩]) :=
  aget_results_loop_short_page
    (fun w => List.range (if w.start = 30 then 12 else w.rows))
    [⟨10, 20⟩] ⟨30, 20⟩ [⟨50, 5⟩] (by decide) (by decide)

/-- C8: `alen` issues exactly one `create_query` call carrying no
`start`/`rows` window (the count-only query), reads nothing but its
`num_found`, and returns `min(num_found, limit)` when a nonzero limit is set
and `num_found` unchanged when no limit is set. -/
theorem alen_count_and_clamp (r : FieldRegistry) (cfg : Config) (nf : Nat)
    (params : QueryData) (hok : get_query_params r cfg = Except.ok params) :
    (∀ l, cfg.limit = some l → l ≠ 0 →
      alen r cfg nf = (Except.ok (min nf l), [⟨params, none, none⟩]))
    ∧ (cfg.limit = none → alen r cfg nf = (Except.ok nf, [⟨params, none, none⟩])) := by
  constructor
  · intro l hl hlne
    unfold alen
    rw [hok, hl]
    simp [limit_truthy, hlne]
  · intro hl
    unfold alen
    rw [hok, hl]
    rfl

/-- Witness for C8: the `appl_id` query with limit 3 against a backend
reporting 10 matches returns 3, through one windowless call. -/
theorem alen_count_and_clamp_witness :
    alen sampleRegistry ⟨[(⟨"appl_id", []⟩, Value.str "12345678")], [], some 3, 0⟩ 10 =
      (Except.ok 3, [⟨⟨"appl_id:(12345678)", false, "0%", none⟩, none, none⟩]) :=
  (alen_count_and_clamp sampleRegistry
    ⟨[(⟨"appl_id", []⟩, Value.str "12345678")], [], some 3, 0⟩ 10
    ⟨"appl_id:(12345678)", false, "0%", none⟩ rfl).1 3 rfl (by decide)

/-- C9: a configured limit of 0 is falsy in Python, so `alen` skips the clamp
and returns the backend's full count rather than 0. -/
theorem alen_limit_zero_returns_count (r : FieldRegistry) (cfg : Config) (nf : Nat)
    (params : QueryData) (hok : get_query_params r cfg = Except.ok params)
    (hl : cfg.limit = some 0) :
    alen r cfg nf = (Except.ok nf, [⟨params, none, none⟩]) := by
  unfold alen
  rw [hok, hl]
  rfl

/-- Witness for C9: limit 0 with 7 backend matches returns 7, not 0. -/
theorem alen_limit_zero_returns_count_witness :
    alen sampleRegistry ⟨[(⟨"appl_id", []⟩, Value.str "12345678")], [], some 0, 0⟩ 7 =
      (Except.ok 7, [⟨⟨"appl_id:(12345678)", false, "0%", none⟩, none, none⟩]) :=
  alen_limit_zero_returns_count sampleRegistry
    ⟨[(⟨"appl_id", []⟩, Value.str "12345678")], [], some 0, 0⟩ 7
    ⟨"appl_id:(12345678)", false, "0%", none⟩ rfl rfl

theorem render_date_clause_shape (k : String) (v : Value × Value) (c : String)
    (h : render_date_clause k v = Except.ok c) :
    ∃ d0 d1, cast_as_datetime v.1 false = Except.ok d0 ∧
      cast_as_datetime v.2 true = Except.ok d1 ∧
      c = k ++ ":[" ++ datetime_to_solr d0 ++ " TO " ++ datetime_to_solr d1 ++ "]" := by
  unfold render_date_clause at h
  cases hs : cast_as_datetime v.1 false with
  | error e =>
    rw [hs] at h
    exact absurd h (by simp)
  | ok d0 =>
    rw [hs] at h
    cases he : cast_as_datetime v.2 true with
    | error e =>
      rw [he] at h
      exact absurd h (by simp)
    | ok d1 =>
      rw [he] at h
      simp only [Except.ok.injEq] at h
      exact ⟨d0, d1, rfl, rfl, h.symm⟩

theorem render_date_clauses_mem (l : List (String × (Value × Value)))
    (cs : List String) (h : render_date_clauses l = Except.ok cs)
    (c : String) (hc : c ∈ cs) :
    ∃ p ∈ l, render_date_clause p.1 p.2 = Except.ok c := by
  induction l generalizing cs with
  | nil =>
    simp only [render_date_clauses, Except.ok.injEq] at h
    subst h
    exact absurd hc (by simp)
  | cons p t ih =>
    obtain ⟨k, v⟩ := p
    simp only [render_date_clauses] at h
    cases h0 : render_date_clause k v with
    | error e =>
      rw [h0] at h
      exact absurd h (by simp)
    | ok c0 =>
      rw [h0] at h
      cases h1 : render_date_clauses t with
      | error e =>
        rw [h1] at h
        exact absurd h (by simp)
      | ok cs0 =>
        rw [h1] at h
        simp only [Except.ok.injEq] at h
        subst h
        rcases List.mem_cons.mp hc with hceq | hmem
        · subst hceq
          exact ⟨(k, v), List.mem_cons_self _ _, h0⟩
        · obtain ⟨q, hq, hqc⟩ := ih cs0 h1 hmem
          exact ⟨q, List.mem_cons_of_mem _ hq, hqc⟩

/-- C10: every date range clause that the date-clause stage of
`get_query_params` successfully renders has its lower bound rendered at time
exactly 00:00:00 and its upper bound at exactly 23:59:59, whatever
time-of-day the caller supplied: `cast_as_datetime` overwrites the hour,
minute and second of both bounds at render time (manager.py lines 118-119). -/
theorem date_clauses_fixed_times (r : FieldRegistry)
    (filter : List (FilterKey × Value)) (cs : List String)
    (h : date_clauses r filter = Except.ok cs) (c : String) (hc : c ∈ cs) :
    ∃ k d0 d1,
      c = k ++ ":[" ++ datetime_to_solr d0 ++ " TO " ++ datetime_to_solr d1 ++ "]"
      ∧ d0.hour = 0 ∧ d0.minute = 0 ∧ d0.second = 0
      ∧ d1.hour = 23 ∧ d1.minute = 59 ∧ d1.second = 59 := by
  unfold date_clauses at h
  cases hft : date_filter_tuples (date_filters r filter) with
  | error e =>
    rw [hft] at h
    exact absurd h (by simp)
  | ok ts =>
    rw [hft] at h
    obtain ⟨p, _, hp⟩ := render_date_clauses_mem _ cs h c hc
    obtain ⟨d0, d1, hc0, hc1, hshape⟩ := render_date_clause_shape p.1 p.2 c hp
    obtain ⟨hh0, hm0, hs0⟩ := cast_as_datetime_false_time p.2.1 d0 hc0
    obtain ⟨hh1, hm1, hs1⟩ := cast_as_datetime_true_time p.2.2 d1 hc1
    exact ⟨p.1, d0, d1, hshape, hh0, hm0, hs0, hh1, hm1, hs1⟩

/-- Witness for C10: a `datetime` input carrying time 13:45:10 still renders
as the [00:00:00, 23:59:59] day range. -/
theorem date_clauses_fixed_times_witness :
    ∃ k d0 d1,
      "filing_date:[2020-01-01T00:00:00Z TO 2020-01-01T23:59:59Z]" =
        k ++ ":[" ++ datetime_to_solr d0 ++ " TO " ++ datetime_to_solr d1 ++ "]"
      ∧ d0.hour = 0 ∧ d0.minute = 0 ∧ d0.second = 0
      ∧ d1.hour = 23 ∧ d1.minute = 59 ∧ d1.second = 59 :=
  date_clauses_fixed_times sampleRegistry
    [(⟨"filing_date", []⟩, Value.dt ⟨2020, 1, 1, 13, 45, 10⟩)]
    ["filing_date:[2020-01-01T00:00:00Z TO 2020-01-01T23:59:59Z]"] rfl
    "filing_date:[2020-01-01T00:00:00Z TO 2020-01-01T23:59:59Z]"
    (List.mem_singleton.mpr rfl)
